import Mathlib

/-!
Shallow embedding of the Umbra-AI backend (Express + Supabase).

The repository has two source files:
* `src/supabase.js` — the Backend Client Adapter: a set of helpers, each
  wrapping exactly one Supabase operation in a try/catch that converts any
  thrown failure into a sentinel (null / false / empty list).
* `src/unnamed/part_000` — two Express routers: the auth router
  (signup/signin/…/health) and the conversation router
  (list/create/read/update/archive conversations, post/list messages, health).

Machine integers do not occur; timestamps are modelled as `Nat`, ids and
body fields as `String`/`Option String`.  JavaScript exceptions are modelled
by `Except JsError`; a JS `try { … } catch (e) { … }` is `jsTry`.  The
managed Postgres store is a record `DB` of lists of rows; PostgREST's
`.single()` modifier is `singleRow` (succeeds exactly when the filtered
result has exactly one row).
-/

namespace Umbra

/-! ## Data model (section 3 of the spec, shapes as used by the code) -/

/-- Auth-provider user: `id`, `email`, `email_confirmed_at`,
`user_metadata.full_name` (optional). -/
structure User where
  id : String
  email : String
  email_confirmed_at : Option String
  user_metadata_full_name : Option String
deriving Repr, DecidableEq

/-- Row of `user_profiles`. -/
structure Profile where
  id : String
  email : String
  full_name : String
  avatar_url : Option String
  subscription_tier : String
  api_usage_count : Nat
  api_usage_limit : Nat
  updated_at : Nat
deriving Repr, DecidableEq

/-- Row of `conversations`. -/
structure Conversation where
  id : String
  user_id : String
  title : String
  thread_id : Option String
  is_archived : Bool
  updated_at : Nat
deriving Repr, DecidableEq

/-- Row of `messages`. -/
structure Message where
  id : Nat
  conversation_id : String
  user_id : String
  role : String
  content : String
  metadata : List (String × String)
  created_at : Nat
deriving Repr, DecidableEq

/-- Row of `api_usage` (append-only log). -/
structure ApiUsageRecord where
  user_id : String
  endpoint : String
  tokens_used : Nat
  cost_cents : Nat
deriving Repr, DecidableEq

/-- The managed relational store. -/
structure DB where
  profiles : List Profile
  conversations : List Conversation
  messages : List Message
  api_usage : List ApiUsageRecord
deriving Repr, DecidableEq

/-! ## JavaScript-semantics helpers -/

/-- Truthiness of an optional string request-body field: `undefined` (absent)
and the empty string are falsy, every other string is truthy.  Models the JS
guards `if (!email || !password)` and `if (!role || !content)`. -/
def jsTruthy : Option String → Bool
  | none => false
  | some s => s != ""

/-- The JS `a || b` fallback on an optional string: falls through to `b`
when `a` is `undefined` or falsy (empty). -/
def jsOr (a : Option String) (b : String) : String :=
  match a with
  | none => b
  | some s => if s = "" then b else s

/-- Models `email.split(Char.ofNat 64)[0]`: everything before the first
at-sign (the whole string when there is none). -/
def emailLocalPart (email : String) : String :=
  email.takeWhile (fun c => c != '@')

/-- A Supabase/PostgREST error object (only its message matters here). -/
structure SbError where
  message : String
deriving Repr, DecidableEq

/-- Result shape of one backend operation: `{ data, error }`. -/
abbrev SbResult (α : Type) := Except SbError α

/-- A thrown JavaScript value as the adapter can see one. -/
inductive JsError where
  | sb (e : SbError)
  | typeError (msg : String)
  | referenceError (name : String)
deriving Repr, DecidableEq

/-- Models the adapter pattern `if (error) throw error; … data …`. -/
def sbUnwrap {α : Type} : SbResult α → Except JsError α
  | .ok a => .ok a
  | .error e => .error (.sb e)

/-- A JS `try { body } catch (e) { handler }`: the handler intercepts every
value the body throws (the handler itself could, in principle, throw too,
which is why the result is still `Except`). -/
def jsTry {α : Type} (body : Except JsError α) (handler : JsError → Except JsError α) :
    Except JsError α :=
  match body with
  | .ok a => .ok a
  | .error e => handler e

/-- PostgREST `.single()`: succeeds iff the filtered result has exactly one
row, otherwise reports an error. -/
def singleRow {α : Type} : List α → SbResult α
  | [a] => .ok a
  | _ => .error ⟨"JSON object requested, multiple (or no) rows returned"⟩

/-! ## Backend Client Adapter, abstract-response view (src/supabase.js)

Each `…Call` function is the literal try/catch structure of one helper,
parameterised by the response(s) of the backend operation(s) it awaits, so
that the no-raise contract can be settled for every possible backend
outcome.  (The deterministic `DB`-level versions used by the route handlers
come further down.) -/

/-- Lines 20-29: `verifyToken` — unwrap `supabase.auth.getUser(token)`,
return the user; catch returns null. -/
def verifyTokenCall (resp : SbResult (Option User)) : Except JsError (Option User) :=
  jsTry
    (do
      let user ← sbUnwrap resp
      pure user)
    (fun _e => pure none)

/-- Lines 32-46: `getUserProfile` — select single row by id; catch
returns null. -/
def getUserProfileCall (resp : SbResult Profile) : Except JsError (Option Profile) :=
  jsTry
    (do
      let data ← sbUnwrap resp
      pure (some data))
    (fun _e => pure none)

/-- The row `createUserProfile` inserts (lines 53-61): default tier "free",
usage 0, limit 100; full name falls back to the email local part. -/
def freshProfile (user : User) (now : Nat) : Profile :=
  { id := user.id
    email := user.email
    full_name := jsOr user.user_metadata_full_name (emailLocalPart user.email)
    avatar_url := none
    subscription_tier := "free"
    api_usage_count := 0
    api_usage_limit := 100
    updated_at := now }

/-- Lines 49-72: `createUserProfile` — insert the fresh row, select it back;
catch returns null. -/
def createUserProfileCall (user : User) (now : Nat) (insertResp : SbResult Profile) :
    Except JsError (Option Profile) :=
  jsTry
    (do
      let _row := freshProfile user now
      let data ← sbUnwrap insertResp
      pure (some data))
    (fun _e => pure none)

/-- Lines 75-103: `updateApiUsage` — the `api_usage` insert's error is never
inspected; the subsequent update interpolates with `supabase.sql`, but the
supabase-js v2 client object has no `sql` member, so that tagged-template
call is a call of `undefined` and throws a TypeError inside the try block;
catch returns false.  (Hence the helper returns false on every input.) -/
def updateApiUsageCall (insertResp : SbResult Unit) (updateResp : SbResult Unit) :
    Except JsError Bool :=
  jsTry
    (do
      let _ignored := insertResp
      let _sql ← (Except.error (JsError.typeError "supabase.sql is not a function") :
        Except JsError String)
      let _ ← sbUnwrap updateResp
      pure true)
    (fun _e => pure false)

/-- Lines 106-116: `checkApiQuota` — `getUserProfile` itself never rejects,
so its already-computed result is the parameter; null profile gives false,
otherwise compare usage to limit; catch returns false. -/
def checkApiQuotaCall (profileResult : Option Profile) : Except JsError Bool :=
  jsTry
    (match profileResult with
      | none => pure false
      | some profile => pure (decide (profile.api_usage_count < profile.api_usage_limit)))
    (fun _e => pure false)

/-- Lines 119-139: `createConversation` — insert + select single; catch
returns null. -/
def createConversationCall (resp : SbResult Conversation) :
    Except JsError (Option Conversation) :=
  jsTry
    (do
      let data ← sbUnwrap resp
      pure (some data))
    (fun _e => pure none)

/-- Lines 142-157: `getUserConversations` — filtered ordered select; catch
returns the empty list. -/
def getUserConversationsCall (resp : SbResult (List Conversation)) :
    Except JsError (List Conversation) :=
  jsTry
    (do
      let data ← sbUnwrap resp
      pure data)
    (fun _e => pure [])

/-- Lines 160-182: `saveMessage` — insert + select single; catch returns
null. -/
def saveMessageCall (resp : SbResult Message) : Except JsError (Option Message) :=
  jsTry
    (do
      let data ← sbUnwrap resp
      pure (some data))
    (fun _e => pure none)

/-- Lines 185-200: `getConversationMessages` — filtered ordered select;
catch returns the empty list. -/
def getConversationMessagesCall (resp : SbResult (List Message)) :
    Except JsError (List Message) :=
  jsTry
    (do
      let data ← sbUnwrap resp
      pure data)
    (fun _e => pure [])

/-- Lines 203-219: `updateConversation` — conditional update scoped to
(id, user) + select single; catch returns null. -/
def updateConversationCall (resp : SbResult Conversation) :
    Except JsError (Option Conversation) :=
  jsTry
    (do
      let data ← sbUnwrap resp
      pure (some data))
    (fun _e => pure none)

/-! ## Backend Client Adapter over the store (deterministic view)

The same helpers, with the managed store behaving as a deterministic
relational `DB`: each PostgREST query chain is its list semantics (filter /
conditional map / order), `.single()` is `singleRow`, and the helper's
try/catch collapses to returning the sentinel on the error branch (the
abstract-response view above already settles that no branch re-raises). -/

/-- The order `.order(updated_at, descending)` sorts conversations by. -/
def convRecency (a b : Conversation) : Prop := b.updated_at ≤ a.updated_at

instance : DecidableRel convRecency := fun a b => Nat.decLe b.updated_at a.updated_at

instance : IsTotal Conversation convRecency := ⟨fun a b => Nat.le_total b.updated_at a.updated_at⟩

instance : IsTrans Conversation convRecency := ⟨fun _ _ _ h h₂ => Nat.le_trans h₂ h⟩

/-- The order `.order(created_at, ascending)` sorts messages by. -/
def msgCreationOrder (a b : Message) : Prop := a.created_at ≤ b.created_at

instance : DecidableRel msgCreationOrder := fun a b => Nat.decLe a.created_at b.created_at

instance : IsTotal Message msgCreationOrder := ⟨fun a b => Nat.le_total a.created_at b.created_at⟩

instance : IsTrans Message msgCreationOrder := ⟨fun _ _ _ h h₂ => Nat.le_trans h h₂⟩

/-- Helper `getUserProfile(userId)`: select the single `user_profiles` row whose id
matches; null when that fails. -/
def getUserProfile (db : DB) (userId : String) : Option Profile :=
  match singleRow (db.profiles.filter (fun p => p.id == userId)) with
  | .ok data => some data
  | .error _ => none

/-- Helper `createUserProfile(user)`: insert the fresh row (primary key is the user
id, so an existing row with that id makes the insert fail and the catch
return null); on success `.select().single()` returns the inserted row. -/
def createUserProfile (db : DB) (user : User) (now : Nat) : Option Profile × DB :=
  let row := freshProfile user now
  if db.profiles.any (fun p => p.id == user.id) then
    (none, db)
  else
    (some row, { db with profiles := db.profiles ++ [row] })

/-- Helper `checkApiQuota(userId)`: false when the profile lookup yields null,
otherwise usage strictly below limit. -/
def checkApiQuota (db : DB) (userId : String) : Bool :=
  match getUserProfile db userId with
  | none => false
  | some profile => decide (profile.api_usage_count < profile.api_usage_limit)

/-- Helper `getUserConversations(userId)`: non-archived conversations of the user,
ordered by `updated_at` descending; empty list on failure. -/
def getUserConversations (db : DB) (userId : String) : List Conversation :=
  List.insertionSort convRecency
    (db.conversations.filter (fun c => c.user_id == userId && c.is_archived == false))

/-- Helper `createConversation(userId, title, threadId)`: insert a new row (id and
timestamp generated by the store, passed in as `genId`/`genNow`). -/
def createConversation (db : DB) (userId title : String) (threadId : Option String)
    (genId : String) (genNow : Nat) : Option Conversation × DB :=
  let row : Conversation :=
    { id := genId, user_id := userId, title := title, thread_id := threadId
      is_archived := false, updated_at := genNow }
  (some row, { db with conversations := db.conversations ++ [row] })

/-- Helper `saveMessage(conversationId, userId, role, content, metadata)`: insert a
new message row (id and creation timestamp generated by the store). -/
def saveMessage (db : DB) (conversationId userId role content : String)
    (metadata : List (String × String)) (genId : Nat) (genCreatedAt : Nat) :
    Option Message × DB :=
  let row : Message :=
    { id := genId, conversation_id := conversationId, user_id := userId
      role := role, content := content, metadata := metadata
      created_at := genCreatedAt }
  (some row, { db with messages := db.messages ++ [row] })

/-- Helper `getConversationMessages(conversationId, userId)`: messages of the
conversation and user, ordered by `created_at` ascending; empty list on
failure. -/
def getConversationMessages (db : DB) (conversationId userId : String) : List Message :=
  List.insertionSort msgCreationOrder
    (db.messages.filter (fun m => m.conversation_id == conversationId && m.user_id == userId))

/-- The update record `updateConversation` receives from the PUT/DELETE
handlers: optional title, optional archived flag. -/
structure ConvUpdates where
  title : Option String
  is_archived : Option Bool
deriving Repr, DecidableEq

/-- Applying an update record to a conversation row: present fields
overwrite, absent fields are kept. -/
def applyConvUpdates (u : ConvUpdates) (c : Conversation) : Conversation :=
  { c with
    title := u.title.getD c.title
    is_archived := u.is_archived.getD c.is_archived }

/-- The store after the conditional `update … .eq(id, conversationId)
.eq(user_id, userId)` statement ran: every row matching id AND owner is
updated in place, every other row is untouched. -/
def applyScopedUpdate (db : DB) (conversationId userId : String) (updates : ConvUpdates) : DB :=
  { db with
    conversations := db.conversations.map
      (fun c => if c.id == conversationId && c.user_id == userId
        then applyConvUpdates updates c else c) }

/-- Helper `updateConversation(conversationId, userId, updates)`: conditional
update scoped to (id, owner) in one statement; `.select().single()` yields
the updated row exactly when exactly one row matched, otherwise the catch
returns null (the update statement itself has run either way). -/
def updateConversation (db : DB) (conversationId userId : String) (updates : ConvUpdates) :
    Option Conversation × DB :=
  match singleRow ((db.conversations.filter
      (fun c => c.id == conversationId && c.user_id == userId)).map
      (applyConvUpdates updates)) with
  | .ok data => (some data, applyScopedUpdate db conversationId userId updates)
  | .error _ => (none, applyScopedUpdate db conversationId userId updates)

/-! ## Auth routes (first module of src/unnamed/part_000)

This module's require destructures `supabase`, `getUserProfile` and
`createUserProfile`, so the direct client queries in its handlers resolve
normally.  Handlers run behind `authenticateUser` where the source says so;
the middleware's output (the authenticated user id) is a parameter. -/

/-- What `supabase.auth.signUp` resolves with: `{ data: { user, session },
error }`; on success the user may still be null. -/
structure SignUpData where
  user : Option User
  session : Option String
deriving Repr, DecidableEq

/-- One call into the auth provider or the managed store, as the signup
handler can issue them, in order. -/
inductive BackendCall where
  | authSignUp (email password : String)
  | selectProfile (userId : String)
  | insertProfile (userId : String)
deriving Repr, DecidableEq

/-- Response of POST /signup as the handler shapes it. -/
structure SignupResponse where
  status : Nat
  userId : Option String
  profile : Option Profile
  session : Option String
deriving Repr, DecidableEq

/-- Lines 7-69: POST /signup.  Requires truthy email and password (400
before any backend call); then delegates to the provider (`providerResp`),
400 on provider error or null user; on success fetches-or-creates the
profile and responds 201.  The second component is the ordered trace of
backend calls the handler issued. -/
def signupHandler (db : DB) (email password fullName : Option String)
    (providerResp : Except SbError SignUpData) (now : Nat) :
    SignupResponse × List BackendCall × DB :=
  if !(jsTruthy email) || !(jsTruthy password) then
    ({ status := 400, userId := none, profile := none, session := none }, [], db)
  else
    let e := email.getD ""
    let pw := password.getD ""
    let _fullNameUsed := jsOr fullName (emailLocalPart e)
    match providerResp with
    | .error _ =>
      ({ status := 400, userId := none, profile := none, session := none },
        [.authSignUp e pw], db)
    | .ok data =>
      match data.user with
      | none =>
        ({ status := 400, userId := none, profile := none, session := none },
          [.authSignUp e pw], db)
      | some user =>
        match getUserProfile db user.id with
        | some profile =>
          ({ status := 201, userId := some user.id, profile := some profile
             session := data.session },
            [.authSignUp e pw, .selectProfile user.id], db)
        | none =>
          let (profile, db') := createUserProfile db user now
          ({ status := 201, userId := some user.id, profile := profile
             session := data.session },
            [.authSignUp e pw, .selectProfile user.id, .insertProfile user.id], db')

/-- The update record PUT /profile builds (lines 171-174): a field enters it
only when present in the body; `updated_at` is always set server-side. -/
structure ProfileUpdates where
  full_name : Option String
  avatar_url : Option String
  updated_at : Nat
deriving Repr, DecidableEq

/-- Lines 171-174: `const updates = {}; if (fullName !== undefined) …;
if (avatarUrl !== undefined) …; updates.updated_at = new Date()…`. -/
def buildProfileUpdates (fullName avatarUrl : Option String) (now : Nat) : ProfileUpdates :=
  { full_name := fullName, avatar_url := avatarUrl, updated_at := now }

/-- Applying the partial update to a profile row: absent fields keep the
stored value. -/
def applyProfileUpdates (u : ProfileUpdates) (p : Profile) : Profile :=
  { p with
    full_name := u.full_name.getD p.full_name
    avatar_url := match u.avatar_url with | some a => some a | none => p.avatar_url
    updated_at := u.updated_at }

/-- Response of PUT /profile. -/
structure ProfileResponse where
  status : Nat
  profile : Option Profile
deriving Repr, DecidableEq

/-- The `user_profiles` store after the update statement scoped to the
authenticated user id ran. -/
def profileStoreAfter (db : DB) (userId : String) (updates : ProfileUpdates) : DB :=
  { db with
    profiles := db.profiles.map
      (fun p => if p.id == userId then applyProfileUpdates updates p else p) }

/-- Lines 166-202: PUT /profile.  Builds the partial update record, runs the
update scoped to the authenticated user id with `.select().single()`; a
query error gives 400, success 200 with the updated profile. -/
def updateProfileHandler (db : DB) (userId : String) (fullName avatarUrl : Option String)
    (now : Nat) : ProfileResponse × DB :=
  match singleRow ((db.profiles.filter (fun p => p.id == userId)).map
      (applyProfileUpdates (buildProfileUpdates fullName avatarUrl now))) with
  | .ok data => ({ status := 200, profile := some data },
      profileStoreAfter db userId (buildProfileUpdates fullName avatarUrl now))
  | .error _ => ({ status := 400, profile := none },
      profileStoreAfter db userId (buildProfileUpdates fullName avatarUrl now))

/-- Body of a health response: HTTP status, the body `status` field, the
service name, and (auth service only) the configuration flag. -/
structure HealthResponse where
  status : Nat
  body_status : String
  service : String
  supabase_configured : Option Bool
deriving Repr, DecidableEq

/-- Lines 314-321: GET /health of the auth router — unconditionally 200 with
body status "OK". -/
def authHealthHandler (configured : Bool) : HealthResponse :=
  { status := 200, body_status := "OK", service := "Authentication API"
    supabase_configured := some configured }

/-! ## Conversation routes (second module of src/unnamed/part_000)

The module's require destructures ONLY the five adapter helpers; the name
`supabase` is not bound in this module, yet three handlers reference it
directly.  Evaluating an unbound identifier throws a ReferenceError, which
each handler's catch-all converts to a 500 response. -/

/-- The names the conversation-routes module binds (its two require lines
plus the module-level consts).  `supabase` is absent. -/
def conversationModuleBindings : List String :=
  ["express", "router", "createConversation", "getUserConversations",
   "getConversationMessages", "updateConversation", "saveMessage",
   "authenticateUser", "rateLimitByTier"]

/-- Evaluating an identifier in the conversation-routes module scope: throws
a ReferenceError when the name is not bound there. -/
def lookupBinding (name : String) : Except JsError Unit :=
  if conversationModuleBindings.contains name then .ok () else .error (.referenceError name)

/-- Response of GET /conversations (the listing). -/
structure ConvListResponse where
  status : Nat
  conversations : List Conversation
  count : Nat
deriving Repr, DecidableEq

/-- Lines 337-353: GET / — list the caller's conversations with a count. -/
def listConversationsHandler (db : DB) (userId : String) : ConvListResponse :=
  let conversations := getUserConversations db userId
  { status := 200, conversations := conversations, count := conversations.length }

/-- Response of GET /conversations/:conversationId. -/
structure ConvDetailResponse where
  status : Nat
  conversation : Option Conversation
  messages : List Message
  messageCount : Nat
deriving Repr, DecidableEq

/-- Lines 389-425, try-block: GET /:conversationId.  The first statement
evaluates the identifier `supabase` (unbound in this module); were it bound,
the lookup by id AND owner would 404 on error/absence and otherwise respond
200 with conversation, ordered messages and count. -/
def getConversationByIdBody (db : DB) (conversationId userId : String) :
    Except JsError ConvDetailResponse := do
  lookupBinding "supabase"
  match singleRow (db.conversations.filter
      (fun c => c.id == conversationId && c.user_id == userId)) with
  | .error _ =>
    pure { status := 404, conversation := none, messages := [], messageCount := 0 }
  | .ok conversation => do
    let messages := getConversationMessages db conversationId userId
    pure { status := 200, conversation := some conversation, messages := messages
           messageCount := messages.length }

/-- Lines 389-425: the handler with its catch-all (any throw becomes a
generic 500). -/
def getConversationByIdHandler (db : DB) (conversationId userId : String) :
    ConvDetailResponse :=
  match getConversationByIdBody db conversationId userId with
  | .ok r => r
  | .error _ =>
    { status := 500, conversation := none, messages := [], messageCount := 0 }

/-- Response of PUT/DELETE /conversations/:conversationId. -/
structure ConvUpdateResponse where
  status : Nat
  conversation : Option Conversation
deriving Repr, DecidableEq

/-- Lines 428-459: PUT /:conversationId — partial update record from the
body, conditional update scoped to (id, owner); null result gives 404. -/
def putConversationHandler (db : DB) (conversationId userId : String)
    (title : Option String) (isArchived : Option Bool) : ConvUpdateResponse × DB :=
  let updates : ConvUpdates := { title := title, is_archived := isArchived }
  let (updated, db') := updateConversation db conversationId userId updates
  match updated with
  | none => ({ status := 404, conversation := none }, db')
  | some c => ({ status := 200, conversation := some c }, db')

/-- Response of DELETE /conversations/:conversationId (no body data). -/
structure SimpleResponse where
  status : Nat
  success : Bool
deriving Repr, DecidableEq

/-- Lines 462-489: DELETE /:conversationId — a conditional update setting
`is_archived := true` scoped to (id, owner); null result gives 404, else 200
with a bare confirmation. -/
def deleteConversationHandler (db : DB) (conversationId userId : String) :
    SimpleResponse × DB :=
  let (updated, db') := updateConversation db conversationId userId
    { title := none, is_archived := some true }
  match updated with
  | none => ({ status := 404, success := false }, db')
  | some _ => ({ status := 200, success := true }, db')

/-- Response of POST /conversations/:conversationId/messages. -/
structure MessagePostResponse where
  status : Nat
  createdMessage : Option Message
deriving Repr, DecidableEq

/-- Lines 492-540, try-block: POST /:conversationId/messages.  Role and
content are validated first (400); the ownership check then evaluates the
unbound identifier `supabase` and throws; the insert would only run after
that check. -/
def postMessageBody (db : DB) (conversationId userId : String)
    (role content : Option String) (metadata : Option (List (String × String)))
    (genId genCreatedAt : Nat) : Except JsError (MessagePostResponse × DB) := do
  if !(jsTruthy role) || !(jsTruthy content) then
    pure ({ status := 400, createdMessage := none }, db)
  else do
    lookupBinding "supabase"
    match singleRow (db.conversations.filter
        (fun c => c.id == conversationId && c.user_id == userId)) with
    | .error _ => pure ({ status := 404, createdMessage := none }, db)
    | .ok _conversation =>
      let (msg, db') := saveMessage db conversationId userId (role.getD "")
        (content.getD "") (metadata.getD []) genId genCreatedAt
      match msg with
      | none => pure ({ status := 500, createdMessage := none }, db')
      | some m => pure ({ status := 201, createdMessage := some m }, db')

/-- Lines 492-540: the handler with its catch-all (a throw leaves the store
untouched and yields a generic 500). -/
def postMessageHandler (db : DB) (conversationId userId : String)
    (role content : Option String) (metadata : Option (List (String × String)))
    (genId genCreatedAt : Nat) : MessagePostResponse × DB :=
  match postMessageBody db conversationId userId role content metadata genId genCreatedAt with
  | .ok r => r
  | .error _ => ({ status := 500, createdMessage := none }, db)

/-- Lines 580-586: GET /health of the conversation router — unconditionally
200 with body status "OK" (when it is reached at all). -/
def convHealthHandler : HealthResponse :=
  { status := 200, body_status := "OK", service := "Conversations API"
    supabase_configured := none }

/-! ## Express routing

Express matches a router's routes in registration order; `:param` matches
any single path segment.  Paths are modelled as segment lists. -/

inductive Method where
  | get | post | put | delete
deriving Repr, DecidableEq, BEq

/-- One segment of a route pattern. -/
inductive Seg where
  | lit (s : String)
  | param (name : String)
deriving Repr, DecidableEq

def segMatch : Seg → String → Bool
  | .lit s, x => s == x
  | .param _, _ => true

def pathMatch : List Seg → List String → Bool
  | [], [] => true
  | s :: ps, x :: xs => segMatch s x && pathMatch ps xs
  | _, _ => false

/-- First route of the table matching the method and path. -/
def dispatch {ρ : Type} (table : List (Method × List Seg × ρ)) (m : Method)
    (path : List String) : Option ρ :=
  match table with
  | [] => none
  | (m', pat, r) :: rest =>
    if m' == m && pathMatch pat path then some r else dispatch rest m path

/-- Handlers of the conversation router. -/
inductive ConvRoute where
  | listAll | createOne | getById | putById | deleteById
  | postMessage | getMessages | health
deriving Repr, DecidableEq

/-- The conversation router's routes in source registration order (the
`/health` route is registered last, after the `/:conversationId` routes). -/
def convRouterTable : List (Method × List Seg × ConvRoute) :=
  [ (.get,    [],                                          .listAll),
    (.post,   [],                                          .createOne),
    (.get,    [.param "conversationId"],                   .getById),
    (.put,    [.param "conversationId"],                   .putById),
    (.delete, [.param "conversationId"],                   .deleteById),
    (.post,   [.param "conversationId", .lit "messages"],  .postMessage),
    (.get,    [.param "conversationId", .lit "messages"],  .getMessages),
    (.get,    [.lit "health"],                             .health) ]

/-- Handlers of the auth router. -/
inductive AuthRoute where
  | signup | signin | signout | getProfile | putProfile
  | resetPassword | putPassword | refresh | health
deriving Repr, DecidableEq

/-- The auth router's routes in source registration order (all patterns are
literal, so nothing shadows `/health` here). -/
def authRouterTable : List (Method × List Seg × AuthRoute) :=
  [ (.post, [.lit "signup"],         .signup),
    (.post, [.lit "signin"],         .signin),
    (.post, [.lit "signout"],        .signout),
    (.get,  [.lit "profile"],        .getProfile),
    (.put,  [.lit "profile"],        .putProfile),
    (.post, [.lit "reset-password"], .resetPassword),
    (.put,  [.lit "password"],       .putPassword),
    (.post, [.lit "refresh"],        .refresh),
    (.get,  [.lit "health"],         .health) ]

/-! ## Concrete fixtures used by the witness theorems -/

/-- A stored profile (owner u1, usage 3 of 100). -/
def profW : Profile :=
  { id := "u1", email := "ada@example.com", full_name := "Ada"
    avatar_url := none, subscription_tier := "free"
    api_usage_count := 3, api_usage_limit := 100, updated_at := 1 }

/-- A stored conversation owned by u1. -/
def convW : Conversation :=
  { id := "c1", user_id := "u1", title := "Draft", thread_id := none
    is_archived := false, updated_at := 2 }

/-- A stored message in c1. -/
def msgW : Message :=
  { id := 1, conversation_id := "c1", user_id := "u1", role := "user"
    content := "hello", metadata := [], created_at := 3 }

/-- A small populated store. -/
def dbW : DB :=
  { profiles := [profW], conversations := [convW], messages := [msgW], api_usage := [] }

/-- The empty store. -/
def emptyDB : DB :=
  { profiles := [], conversations := [], messages := [], api_usage := [] }

/-- A just-signed-up auth user with no profile row yet. -/
def userW : User :=
  { id := "u9", email := "new@example.com", email_confirmed_at := none
    user_metadata_full_name := some "New User" }


/-! ## Shared lemmas -/

/-- The GET /:conversationId handler hits the unbound `supabase` identifier
before anything else in its try block, so every request takes the catch-all
500 path, whatever the store contains. -/
lemma getById_handler_500 (db : DB) (conversationId userId : String) :
    (getConversationByIdHandler db conversationId userId).status = 500 := rfl

/-- The store component of `updateConversation` is the scoped update,
whichever way `.single()` decided. -/
lemma updateConversation_store (db : DB) (cid uid : String) (u : ConvUpdates) :
    (updateConversation db cid uid u).2 = applyScopedUpdate db cid uid u := by
  unfold updateConversation
  cases singleRow ((db.conversations.filter
      (fun c => c.id == cid && c.user_id == uid)).map (applyConvUpdates u)) <;> rfl

/-- The store component of the DELETE handler is the scoped archival
update. -/
lemma deleteConversation_store (db : DB) (cid uid : String) :
    (deleteConversationHandler db cid uid).2 =
      applyScopedUpdate db cid uid { title := none, is_archived := some true } := by
  have h := updateConversation_store db cid uid { title := none, is_archived := some true }
  unfold deleteConversationHandler
  rcases hu : updateConversation db cid uid { title := none, is_archived := some true }
    with ⟨upd, db2⟩
  rw [hu] at h
  cases upd <;> simpa using h

/-! ## Claim theorems -/

/-- C1: the claim says GET /conversations/:id responds 404 when no owned
conversation exists and 200 with the conversation, ordered messages and
count otherwise.  The code cannot do either: the conversation-routes module
never imports `supabase`, the handler throws a ReferenceError at the lookup
and the catch-all responds 500 on every request. -/
theorem getConversationById_always_500 (db : DB) (conversationId userId : String) :
    (getConversationByIdHandler db conversationId userId).status = 500 ∧
    (getConversationByIdHandler db conversationId userId).status ≠ 404 ∧
    (getConversationByIdHandler db conversationId userId).status ≠ 200 := by
  have h := getById_handler_500 db conversationId userId
  exact ⟨h, by rw [h]; decide, by rw [h]; decide⟩

/-- C2: the claim says GET /health returns 200 with body status "OK" on both
services regardless of authentication.  True for the auth router; false for
the conversation router, whose `/health` route is registered after
`GET /:conversationId` and is therefore shadowed: the dispatcher sends
GET /health to the conversation-by-id route, which (behind authentication)
always responds 500. -/
theorem health_route_shadowed :
    dispatch convRouterTable .get ["health"] = some .getById ∧
    (∀ (db : DB) (userId : String),
      (getConversationByIdHandler db "health" userId).status = 500) ∧
    convHealthHandler.status = 200 ∧ convHealthHandler.body_status = "OK" ∧
    dispatch authRouterTable .get ["health"] = some .health ∧
    (∀ configured : Bool, (authHealthHandler configured).status = 200 ∧
      (authHealthHandler configured).body_status = "OK") :=
  ⟨rfl, fun db userId => getById_handler_500 db "health" userId, rfl, rfl, rfl,
    fun _ => ⟨rfl, rfl⟩⟩

/-- C3: the claim says POST /conversations/:id/messages responds 404 for a
conversation not owned by the caller and creates no message row.  With role
and content present the ownership check evaluates the unbound identifier
`supabase`, so the handler responds 500 (never 404) — though indeed no
message row is created, since the throw precedes the insert. -/
theorem postMessage_500_and_no_row (db : DB) (conversationId userId : String)
    (role content : Option String) (metadata : Option (List (String × String)))
    (genId genCreatedAt : Nat)
    (hrole : jsTruthy role = true) (hcontent : jsTruthy content = true) :
    (postMessageHandler db conversationId userId role content metadata
      genId genCreatedAt).1.status = 500 ∧
    (postMessageHandler db conversationId userId role content metadata
      genId genCreatedAt).2 = db := by
  have hbody : postMessageBody db conversationId userId role content metadata
      genId genCreatedAt = .error (.referenceError "supabase") := by
    unfold postMessageBody
    rw [hrole, hcontent]
    rfl
  unfold postMessageHandler
  rw [hbody]
  exact ⟨rfl, rfl⟩

/-- C3 witness: even the legitimate owner of conversation c1 posting a valid
message gets a 500 and the store keeps its message list unchanged. -/
theorem postMessage_500_and_no_row_witness :
    (postMessageHandler dbW "c1" "u1" (some "user") (some "hi") none 9 9).1.status = 500 ∧
    (postMessageHandler dbW "c1" "u1" (some "user") (some "hi") none 9 9).2 = dbW :=
  postMessage_500_and_no_row dbW "c1" "u1" (some "user") (some "hi") none 9 9 rfl rfl

/-- C4: every Backend Client Adapter helper wraps its body in a catch that
returns the sentinel (null, false or the empty collection): whatever the
backend responses, the helper resolves with a plain value — it never
re-raises — and a reported backend failure yields exactly the sentinel. -/
theorem adapter_helpers_never_raise :
    (∀ r : SbResult (Option User), ∃ v, verifyTokenCall r = .ok v) ∧
    (∀ e : SbError, verifyTokenCall (.error e) = .ok none) ∧
    (∀ r : SbResult Profile, ∃ v, getUserProfileCall r = .ok v) ∧
    (∀ e : SbError, getUserProfileCall (.error e) = .ok none) ∧
    (∀ (u : User) (now : Nat) (r : SbResult Profile),
      ∃ v, createUserProfileCall u now r = .ok v) ∧
    (∀ (u : User) (now : Nat) (e : SbError),
      createUserProfileCall u now (.error e) = .ok none) ∧
    (∀ (r₁ r₂ : SbResult Unit), updateApiUsageCall r₁ r₂ = .ok false) ∧
    (∀ p : Option Profile, ∃ v, checkApiQuotaCall p = .ok v) ∧
    (checkApiQuotaCall none = .ok false) ∧
    (∀ r : SbResult Conversation, ∃ v, createConversationCall r = .ok v) ∧
    (∀ e : SbError, createConversationCall (.error e) = .ok none) ∧
    (∀ r : SbResult (List Conversation), ∃ v, getUserConversationsCall r = .ok v) ∧
    (∀ e : SbError, getUserConversationsCall (.error e) = .ok []) ∧
    (∀ r : SbResult Message, ∃ v, saveMessageCall r = .ok v) ∧
    (∀ e : SbError, saveMessageCall (.error e) = .ok none) ∧
    (∀ r : SbResult (List Message), ∃ v, getConversationMessagesCall r = .ok v) ∧
    (∀ e : SbError, getConversationMessagesCall (.error e) = .ok []) ∧
    (∀ r : SbResult Conversation, ∃ v, updateConversationCall r = .ok v) ∧
    (∀ e : SbError, updateConversationCall (.error e) = .ok none) := by
  refine ⟨?_, fun e => rfl, ?_, fun e => rfl, ?_, fun u now e => rfl, fun r₁ r₂ => rfl,
    ?_, rfl, ?_, fun e => rfl, ?_, fun e => rfl, ?_, fun e => rfl, ?_, fun e => rfl,
    ?_, fun e => rfl⟩
  · rintro (e | a) <;> exact ⟨_, rfl⟩
  · rintro (e | a) <;> exact ⟨_, rfl⟩
  · rintro u now (e | a) <;> exact ⟨_, rfl⟩
  · rintro (_ | q) <;> exact ⟨_, rfl⟩
  · rintro (e | a) <;> exact ⟨_, rfl⟩
  · rintro (e | a) <;> exact ⟨_, rfl⟩
  · rintro (e | a) <;> exact ⟨_, rfl⟩
  · rintro (e | a) <;> exact ⟨_, rfl⟩
  · rintro (e | a) <;> exact ⟨_, rfl⟩

/-- C5: POST /signup with a missing (or empty, hence falsy) email or
password responds 400, issues no backend call at all, and leaves the store
untouched. -/
theorem signup_missing_fields_400_no_calls (db : DB)
    (email password fullName : Option String)
    (providerResp : Except SbError SignUpData) (now : Nat)
    (h : jsTruthy email = false ∨ jsTruthy password = false) :
    (signupHandler db email password fullName providerResp now).1.status = 400 ∧
    (signupHandler db email password fullName providerResp now).2.1 = [] ∧
    (signupHandler db email password fullName providerResp now).2.2 = db := by
  have hc : (!(jsTruthy email) || !(jsTruthy password)) = true := by
    rcases h with h | h <;> rw [h] <;> simp
  unfold signupHandler
  rw [hc]
  exact ⟨rfl, rfl, rfl⟩

/-- C5 witness: a signup with an email but no password is refused with 400,
no backend call and an unchanged store. -/
theorem signup_missing_fields_400_no_calls_witness :
    (signupHandler dbW (some "ada@example.com") none none (.error ⟨"x"⟩) 0).1.status = 400 ∧
    (signupHandler dbW (some "ada@example.com") none none (.error ⟨"x"⟩) 0).2.1 = [] ∧
    (signupHandler dbW (some "ada@example.com") none none (.error ⟨"x"⟩) 0).2.2 = dbW :=
  signup_missing_fields_400_no_calls dbW (some "ada@example.com") none none
    (.error ⟨"x"⟩) 0 (Or.inr rfl)

/-- C9: the messages the adapter returns for a conversation are ordered by
creation timestamp ascending: consecutive pairs are non-decreasing. -/
theorem messages_sorted_by_created_at (db : DB) (conversationId userId : String) :
    (getConversationMessages db conversationId userId).Pairwise
      (fun a b => a.created_at ≤ b.created_at) :=
  List.sorted_insertionSort msgCreationOrder
    (db.messages.filter (fun m => m.conversation_id == conversationId && m.user_id == userId))

/-! ## Conditional-update lemmas (C6) -/

lemma map_scoped_id (cid uid : String) (u : ConvUpdates) :
    ∀ l : List Conversation, (∀ a ∈ l, (a.id == cid && a.user_id == uid) = false) →
      l.map (fun c => if c.id == cid && c.user_id == uid
        then applyConvUpdates u c else c) = l
  | [], _ => rfl
  | a :: t, h => by
    have ha := h a (List.mem_cons_self a t)
    have ih := map_scoped_id cid uid u t (fun b hb => h b (List.mem_cons_of_mem a hb))
    simp only [List.map_cons]
    rw [if_neg (by simp [ha]), ih]

/-- A scoped update that matches no stored row leaves the store unchanged. -/
lemma applyScopedUpdate_no_hit (db : DB) (cid uid : String) (u : ConvUpdates)
    (h : ∀ a ∈ db.conversations, (a.id == cid && a.user_id == uid) = false) :
    applyScopedUpdate db cid uid u = db := by
  unfold applyScopedUpdate
  rw [map_scoped_id cid uid u db.conversations h]

/-- After the archival update, every stored row carrying the targeted id and
owner has its archived flag set. -/
lemma applyScopedUpdate_archived (db : DB) (cid uid : String) :
    ∀ c ∈ (applyScopedUpdate db cid uid
        { title := none, is_archived := some true }).conversations,
      c.id = cid → c.user_id = uid → c.is_archived = true := by
  intro c hc hid huid
  simp only [applyScopedUpdate, List.mem_map] at hc
  obtain ⟨a, ha, rfl⟩ := hc
  by_cases hcase : (a.id == cid && a.user_id == uid) = true
  · rw [if_pos hcase]
    rfl
  · rw [if_neg hcase] at hid huid ⊢
    exact absurd (by rw [hid, huid]; simp) hcase

/-- After the archival update, the target conversation no longer appears in
the non-archived listing of its owner. -/
lemma archived_excluded (db : DB) (cid uid : String) :
    ∀ c ∈ getUserConversations (applyScopedUpdate db cid uid
        { title := none, is_archived := some true }) uid,
      c.id ≠ cid := by
  intro c hc hne
  unfold getUserConversations at hc
  rw [List.mem_insertionSort, List.mem_filter] at hc
  obtain ⟨hmem, hpred⟩ := hc
  simp only [Bool.and_eq_true, beq_iff_eq] at hpred
  obtain ⟨huid, harch⟩ := hpred
  have harchived := applyScopedUpdate_archived db cid uid c hmem hne huid
  rw [harch] at harchived
  exact Bool.false_ne_true harchived

/-- C6: DELETE /conversations/:id is a conditional archival update scoped to
(id, owner): with no such owned row it responds 404 and changes nothing;
after it runs, every stored row with that id and owner is archived, and the
listing for that user (non-archived rows, most recent first) no longer
contains the conversation. -/
theorem archive_then_list_excludes (db : DB) (conversationId userId : String) :
    (db.conversations.filter
        (fun c => c.id == conversationId && c.user_id == userId) = [] →
      (deleteConversationHandler db conversationId userId).1.status = 404 ∧
      (deleteConversationHandler db conversationId userId).2 = db) ∧
    (∀ c ∈ (deleteConversationHandler db conversationId userId).2.conversations,
      c.id = conversationId → c.user_id = userId → c.is_archived = true) ∧
    (∀ c ∈ getUserConversations
        (deleteConversationHandler db conversationId userId).2 userId,
      c.id ≠ conversationId) := by
  refine ⟨fun hfil => ⟨?_, ?_⟩, ?_, ?_⟩
  · unfold deleteConversationHandler updateConversation
    rw [hfil]
    rfl
  · have hnone : ∀ a ∈ db.conversations,
        (a.id == conversationId && a.user_id == userId) = false := by
      intro a ha
      by_contra hb
      have hmem : a ∈ db.conversations.filter
          (fun c => c.id == conversationId && c.user_id == userId) :=
        List.mem_filter.mpr ⟨ha, by simpa using hb⟩
      rw [hfil] at hmem
      exact absurd hmem (List.not_mem_nil a)
    rw [deleteConversation_store]
    exact applyScopedUpdate_no_hit db conversationId userId _ hnone
  · rw [deleteConversation_store]
    exact applyScopedUpdate_archived db conversationId userId
  · rw [deleteConversation_store]
    exact archived_excluded db conversationId userId

/-! ## Profile update lemmas (C7) -/

lemma updateProfileHandler_store (db : DB) (userId : String)
    (fullName avatarUrl : Option String) (now : Nat) :
    (updateProfileHandler db userId fullName avatarUrl now).2 =
      profileStoreAfter db userId (buildProfileUpdates fullName avatarUrl now) := by
  unfold updateProfileHandler
  cases singleRow ((db.profiles.filter (fun p => p.id == userId)).map
      (applyProfileUpdates (buildProfileUpdates fullName avatarUrl now))) <;> rfl

/-- C7: PUT /profile with only avatarUrl supplied responds 200 with a
profile whose full name is the stored one; every stored row for that user
keeps its full name; and the update record always carries the server-set
timestamp while carrying no full-name field when the body omitted it. -/
theorem profile_partial_update (db : DB) (userId : String) (avatarUrl : Option String)
    (now : Nat) (p : Profile)
    (hp : db.profiles.filter (fun q => q.id == userId) = [p]) :
    ((updateProfileHandler db userId none avatarUrl now).1.status = 200 ∧
      (updateProfileHandler db userId none avatarUrl now).1.profile =
        some (applyProfileUpdates (buildProfileUpdates none avatarUrl now) p) ∧
      (applyProfileUpdates (buildProfileUpdates none avatarUrl now) p).full_name =
        p.full_name) ∧
    (∀ q ∈ (updateProfileHandler db userId none avatarUrl now).2.profiles,
      q.id = userId → q.full_name = p.full_name) ∧
    (∀ (fn au : Option String) (n : Nat), (buildProfileUpdates fn au n).updated_at = n) ∧
    (buildProfileUpdates none avatarUrl now).full_name = none := by
  refine ⟨?_, ?_, fun fn au n => rfl, rfl⟩
  · unfold updateProfileHandler
    rw [hp]
    exact ⟨rfl, rfl, rfl⟩
  · intro q hq hid
    rw [updateProfileHandler_store] at hq
    simp only [profileStoreAfter, List.mem_map] at hq
    obtain ⟨a, ha, rfl⟩ := hq
    by_cases hcase : (a.id == userId) = true
    · rw [if_pos hcase]
      have hmem : a ∈ db.profiles.filter (fun q => q.id == userId) :=
        List.mem_filter.mpr ⟨ha, hcase⟩
      rw [hp] at hmem
      have ha_eq : a = p := by simpa using hmem
      subst ha_eq
      rfl
    · rw [if_neg hcase] at hid
      exact absurd (by rw [hid]; simp) hcase

/-- C7 witness: updating only the avatar of the stored user keeps the
stored full name and succeeds with 200. -/
theorem profile_partial_update_witness :
    (updateProfileHandler dbW "u1" none (some "pic.png") 7).1.status = 200 ∧
    (applyProfileUpdates (buildProfileUpdates none (some "pic.png") 7) profW).full_name =
      profW.full_name :=
  ⟨(profile_partial_update dbW "u1" (some "pic.png") 7 profW (by decide)).1.1,
    (profile_partial_update dbW "u1" (some "pic.png") 7 profW (by decide)).1.2.2⟩

/-! ## Quota lemmas (C8, C10) -/

/-- Under unique profile ids, filtering for a user id yields nothing (and no
row has the id) or exactly the one row carrying it. -/
lemma filter_profile_id (uid : String) :
    ∀ l : List Profile, (l.map Profile.id).Nodup →
      (l.filter (fun p => p.id == uid) = [] ∧ ∀ p ∈ l, p.id ≠ uid) ∨
      (∃ p, l.filter (fun p => p.id == uid) = [p] ∧ p ∈ l ∧ p.id = uid)
  | [], _ => .inl ⟨rfl, by simp⟩
  | a :: t, hnd => by
    rw [List.map_cons, List.nodup_cons] at hnd
    obtain ⟨hna, hnd2⟩ := hnd
    rcases filter_profile_id uid t hnd2 with ⟨hfil, hall⟩ | ⟨p, hfil, hmem, hid⟩
    · by_cases h : a.id = uid
      · refine .inr ⟨a, ?_, List.mem_cons_self a t, h⟩
        rw [List.filter_cons_of_pos (by simpa using h), hfil]
      · refine .inl ⟨?_, ?_⟩
        · rw [List.filter_cons_of_neg (by simpa using h), hfil]
        · intro q hq
          rcases List.mem_cons.mp hq with rfl | hq
          · exact h
          · exact hall q hq
    · by_cases h : a.id = uid
      · exfalso
        apply hna
        rw [h, ← hid]
        exact List.mem_map_of_mem Profile.id hmem
      · refine .inr ⟨p, ?_, List.mem_cons_of_mem a hmem, hid⟩
        rw [List.filter_cons_of_neg (by simpa using h), hfil]

/-- C8: with profile ids unique in the store, checkApiQuota is true exactly
when the profile row exists and its usage count is strictly below its
limit; a null profile lookup forces false. -/
theorem checkApiQuota_iff (db : DB) (userId : String)
    (hnd : (db.profiles.map Profile.id).Nodup) :
    (checkApiQuota db userId = true ↔
      ∃ p ∈ db.profiles, p.id = userId ∧ p.api_usage_count < p.api_usage_limit) ∧
    (getUserProfile db userId = none → checkApiQuota db userId = false) := by
  constructor
  · rcases filter_profile_id userId db.profiles hnd with ⟨hfil, hall⟩ | ⟨p, hfil, hmem, hid⟩
    · constructor
      · intro h
        unfold checkApiQuota getUserProfile at h
        rw [hfil] at h
        simp [singleRow] at h
      · rintro ⟨q, hq, hqid, _⟩
        exact absurd hqid (hall q hq)
    · have hprof : getUserProfile db userId = some p := by
        unfold getUserProfile
        rw [hfil]
        rfl
      constructor
      · intro h
        refine ⟨p, hmem, hid, ?_⟩
        unfold checkApiQuota at h
        rw [hprof] at h
        simpa using h
      · rintro ⟨q, hq, hqid, hlt⟩
        have hqf : q ∈ db.profiles.filter (fun r => r.id == userId) :=
          List.mem_filter.mpr ⟨hq, by simpa using hqid⟩
        rw [hfil] at hqf
        have hq_eq : q = p := by simpa using hqf
        subst hq_eq
        unfold checkApiQuota
        rw [hprof]
        simpa using hlt
  · intro h
    unfold checkApiQuota
    rw [h]

/-- C8 witness: the stored user u1 (usage 3 of 100) passes the quota
check. -/
theorem checkApiQuota_iff_witness : checkApiQuota dbW "u1" = true :=
  (checkApiQuota_iff dbW "u1" (by decide)).1.mpr ⟨profW, by decide, rfl, by decide⟩

/-- C10: a profile created by createUserProfile starts at tier "free" with
usage 0 and limit 100, and the quota check passes for a user whose profile
is the freshly created one. -/
theorem fresh_profile_defaults_quota (db : DB) (user : User) (now : Nat)
    (h : db.profiles.filter (fun p => p.id == user.id) = []) :
    ∃ p, (createUserProfile db user now).1 = some p ∧
      p.subscription_tier = "free" ∧ p.api_usage_count = 0 ∧ p.api_usage_limit = 100 ∧
      checkApiQuota (createUserProfile db user now).2 user.id = true := by
  have hnone : ∀ q ∈ db.profiles, (q.id == user.id) = false := by
    intro q hq
    by_contra hb
    have hmem : q ∈ db.profiles.filter (fun p => p.id == user.id) :=
      List.mem_filter.mpr ⟨hq, by simpa using hb⟩
    rw [h] at hmem
    exact absurd hmem (List.not_mem_nil q)
  have hany : (db.profiles.any (fun p => p.id == user.id)) = false := by
    rw [List.any_eq_false]
    intro x hx
    simp [hnone x hx]
  refine ⟨freshProfile user now, ?_, rfl, rfl, rfl, ?_⟩
  · unfold createUserProfile
    simp [hany]
  · unfold createUserProfile
    simp only [hany, Bool.false_eq_true, if_false]
    unfold checkApiQuota getUserProfile
    rw [List.filter_append, h]
    simp [freshProfile, singleRow]

/-- C10 witness: signing the fresh user u9 up against the empty store
creates the default profile and the quota check passes. -/
theorem fresh_profile_defaults_quota_witness :
    ∃ p, (createUserProfile emptyDB userW 5).1 = some p ∧
      p.subscription_tier = "free" ∧ p.api_usage_count = 0 ∧ p.api_usage_limit = 100 ∧
      checkApiQuota (createUserProfile emptyDB userW 5).2 userW.id = true :=
  fresh_profile_defaults_quota emptyDB userW 5 rfl

end Umbra
